import Mathlib

/-!
Shallow embedding of the `private-voting` ZK contract
(`src/zk_compute.rs`, `src/contract.rs`) and verification of its
specification claims.

Modelling conventions:
* machine integers (`u8`, `u32`) are `Nat`, with `% 2 ^ 32` (resp. `% 256`)
  written explicitly where the Rust arithmetic wraps;
* `u32` subtraction, `unwrap`, `copy_from_slice` with a length mismatch and
  the like abort the transaction in Rust, so fallible functions return
  `Option`/`Except`;
* Rust `String`s are `List Char`; addresses (`context.sender`,
  `variable.owner`) are opaque and modelled as `Nat`;
* the secret-sharing engine is external: its state (`ZkState`) is embedded
  as plain data, and its guaranteed callback ordering (spec section 5) is
  encoded as guards of the global step relation used for the round-id
  invariant.
-/

/-- The word bound for 32-bit arithmetic. -/
def U32MOD : Nat := 2 ^ 32

/-! ## `zk_compute.rs` -/

/-- The loop body of `zk_compute`: add `Sbi32::from(1)` (32-bit wrapping
arithmetic) when the loaded secret bit equals `one`. -/
def zkComputeStep (votes_for : Nat) (v : Bool) : Nat :=
  if v then (votes_for + 1) % U32MOD else votes_for

/-- Embedding of `zk_compute` from `zk_compute.rs`: fold over the secret
vote bits in engine enumeration order, starting from `Sbi32::from(0)`. -/
def zk_compute (votes : List Bool) : Nat :=
  votes.foldl zkComputeStep 0

/-- The number of `true` bits in a vote list (the mathematical count). -/
def countTrue (votes : List Bool) : Nat :=
  votes.countP (fun v => v)

/-! ## Data model of `contract.rs` -/

/-- `SecretVarType` from `contract.rs`. -/
inductive SecretVarType where
  | Vote
  | CountedYesVotes
deriving DecidableEq, Repr

/-- `SecretVarMetadata` from `contract.rs`. -/
structure SecretVarMetadata where
  variable_type : SecretVarType
deriving DecidableEq, Repr

/-- A secret variable as seen by the contract through `ZkState`: engine id,
owner address, metadata, and the declassified bytes (present only after
opening). -/
structure SecretVariable where
  variable_id : Nat
  owner : Nat
  metadata : SecretVarMetadata
  data : Option (List Nat)
deriving DecidableEq, Repr

/-- A signature as delivered by the computation nodes
(`pbc_contract_common::signature::Signature`): 32 bytes `r`, 32 bytes `s`,
one recovery-id byte. Bytes are `Nat`s below 256. -/
structure Signature where
  value_r : List Nat
  value_s : List Nat
  recovery_id : Nat
deriving DecidableEq, Repr

/-- A completed data attestation in the engine state: id plus the ordered
signatures of the computation nodes. -/
structure DataAttestation where
  attestation_id : Nat
  signatures : List Signature
deriving DecidableEq, Repr

/-- The engine-reported calculation phase. `Waiting` is the idle phase the
contract tests for; the remaining constructors stand for the engine's
non-idle pipeline stages (computing, opening the output, attesting), in the
causal order guaranteed by the engine. -/
inductive CalculationStatus where
  | Waiting
  | Calculating
  | Opening
  | Attesting
deriving DecidableEq, Repr

/-- The engine state visible to the contract (`ZkState`). -/
structure ZkState where
  calculation_state : CalculationStatus
  secret_variables : List SecretVariable
  pending_inputs : List SecretVariable
  data_attestations : List DataAttestation
deriving DecidableEq, Repr

/-- `VoteResult` from `contract.rs`. The `proof` string is a `List Char`. -/
structure VoteResult where
  vote_id : Nat
  votes_for : Nat
  votes_against : Nat
  proof : Option (List Char)
deriving DecidableEq, Repr

/-- `ContractState` from `contract.rs`. -/
structure ContractState where
  current_vote_id : Nat
  vote_results : List VoteResult
deriving DecidableEq, Repr

/-- Errors of the contract's precondition asserts. An assert failure aborts
the transaction, so an `Except.error` models "rejected, nothing changed". -/
inductive VoteError where
  | PhaseError
  | DuplicateVoterError
deriving DecidableEq, Repr

/-- `ZkInputDef` from `pbc_contract_common::zk`, as built by `cast_vote`.
The source field `seal` is named `sealed` here (`seal` is a Lean keyword). -/
structure ZkInputDef where
  sealed : Bool
  metadata : SecretVarMetadata
  expected_bit_lengths : List Nat
deriving DecidableEq, Repr

/-- `ZkStateChange` requests issued by the contract to the engine. -/
inductive ZkStateChange where
  | StartComputation (output_metadata : List SecretVarMetadata)
  | OpenVariables (vs : List Nat)
  | Attest (data_to_attest : List Nat)
  | OutputComplete (variables_to_delete : List Nat)
deriving DecidableEq, Repr

/-- `BITLENGTH_OF_SECRET_VOTE_VARIABLES` from `contract.rs`. -/
def BITLENGTH_OF_SECRET_VOTE_VARIABLES : Nat := 1

/-- `initialize` from `contract.rs` (named `initContract` here): the first
vote has id 1 and the result list is empty. -/
def initContract : ContractState :=
  { current_vote_id := 1, vote_results := [] }

/-! ## Entry points of `contract.rs` -/

/-- `cast_vote` from `contract.rs`: assert the calculation state is
`Waiting`, then assert no confirmed or pending variable is owned by the
sender, then return the unchanged state, no events and the input
definition of the one-bit vote. -/
def cast_vote (sender : Nat) (state : ContractState) (zk_state : ZkState) :
    Except VoteError (ContractState × List Unit × ZkInputDef) :=
  if zk_state.calculation_state ≠ CalculationStatus.Waiting then
    Except.error VoteError.PhaseError
  else if (zk_state.secret_variables ++ zk_state.pending_inputs).any
      (fun v => v.owner == sender) then
    Except.error VoteError.DuplicateVoterError
  else
    Except.ok (state, [],
      { sealed := false
        metadata := { variable_type := SecretVarType.Vote }
        expected_bit_lengths := [BITLENGTH_OF_SECRET_VOTE_VARIABLES] })

/-- `start_vote_counting` from `contract.rs`: assert the calculation state
is `Waiting`, then request the computation with `CountedYesVotes` output
metadata. -/
def start_vote_counting (state : ContractState) (zk_state : ZkState) :
    Except VoteError (ContractState × List Unit × List ZkStateChange) :=
  if zk_state.calculation_state ≠ CalculationStatus.Waiting then
    Except.error VoteError.PhaseError
  else
    Except.ok (state, [],
      [ZkStateChange.StartComputation
        [{ variable_type := SecretVarType.CountedYesVotes }]])

/-- `open_yes_count_variable` from `contract.rs`: request that all reported
output variables are opened; the open state is returned unchanged. -/
def open_yes_count_variable (state : ContractState)
    (output_variables : List Nat) :
    ContractState × List Unit × List ZkStateChange :=
  (state, [], [ZkStateChange.OpenVariables output_variables])

/-! ## Helpers of `contract.rs` -/

/-- One lowercase hexadecimal digit, as produced by Rust's
`{:02x}` formatting. -/
def hexDigit (n : Nat) : Char :=
  if n < 10 then Char.ofNat (48 + n) else Char.ofNat (87 + n)

/-- `format!("{byte:02x}")` for a byte: exactly two lowercase, zero-padded
hexadecimal characters. -/
def byteToHex (b : Nat) : List Char :=
  [hexDigit (b / 16 % 16), hexDigit (b % 16)]

/-- Hex encoding of a byte sequence, two characters per byte, as produced
by the `write!(out, "{byte:02x}")` loops in `as_evm_string`. -/
def hexOfBytes : List Nat → List Char
  | [] => []
  | b :: rest => byteToHex b ++ hexOfBytes rest

/-- `as_evm_string` from `contract.rs`: `"0x"`, the 64 hex characters of
`r`, the 64 hex characters of `s`, and the two hex characters of
`recovery_id + 27` (`u8` arithmetic, hence `% 256`). -/
def as_evm_string (signature : Signature) : List Char :=
  '0' :: 'x' :: (hexOfBytes signature.value_r ++ hexOfBytes signature.value_s
    ++ byteToHex ((signature.recovery_id + 27) % 256))

/-- `", ".join(...)` of Rust's `Vec<String>::join`: interleave the
separator between the items. -/
def joinCommaSep : List (List Char) → List Char
  | [] => []
  | [x] => x
  | x :: y :: rest => x ++ (',' :: ' ' :: joinCommaSep (y :: rest))

/-- The proof string built in `save_attestation_on_result_and_start_next_vote`:
`format!("[{}]", signatures.map(as_evm_string).join(", "))`. -/
def proofString (signatures : List Signature) : List Char :=
  '[' :: (joinCommaSep (signatures.map as_evm_string) ++ [']'])

/-- Big-endian bytes of a `u32`, as written by `rpc_write_to`. -/
def u32ToBeBytes (n : Nat) : List Nat :=
  [n / 2 ^ 24 % 256, n / 2 ^ 16 % 256, n / 2 ^ 8 % 256, n % 256]

/-- `serialize_result_as_big_endian` from `contract.rs`: the three `u32`
fields `vote_id`, `votes_for`, `votes_against`, each written in big-endian
order. -/
def serialize_result_as_big_endian (result : VoteResult) : List Nat :=
  u32ToBeBytes result.vote_id ++ u32ToBeBytes result.votes_for
    ++ u32ToBeBytes result.votes_against

/-- `u32::from_le_bytes` on a 4-byte buffer. -/
def u32FromLeBytes (bytes : List Nat) : Nat :=
  match bytes with
  | [b0, b1, b2, b3] => b0 + b1 * 2 ^ 8 + b2 * 2 ^ 16 + b3 * 2 ^ 24
  | _ => 0

/-- `ZkState::get_variable`: look the variable up by id among the secret
variables. -/
def ZkState.get_variable (zk_state : ZkState) (variable_id : Nat) :
    Option SecretVariable :=
  zk_state.secret_variables.find? (fun v => v.variable_id == variable_id)

/-- `read_variable_u32_le` from `contract.rs`. The source `unwrap`s the
variable and its data and `copy_from_slice`s into a 4-byte buffer; a
missing variable, missing data, or data of length other than 4 panics,
modelled as `none`. -/
def read_variable_u32_le (zk_state : ZkState) (yes_count_variable_id : Nat) :
    Option Nat :=
  match zk_state.get_variable yes_count_variable_id with
  | none => none
  | some yes_count_variable =>
    match yes_count_variable.data with
    | none => none
    | some bytes =>
      if bytes.length = 4 then some (u32FromLeBytes bytes) else none

/-- The number of secret variables of type `Vote` in the engine state. -/
def countVoteVariables (zk_state : ZkState) : Nat :=
  (zk_state.secret_variables.filter
    (fun x => x.metadata.variable_type == SecretVarType.Vote)).length

/-- `determine_result` from `contract.rs`: read the opened yes count,
count the `Vote` variables, and derive `votes_against` by `u32`
subtraction, which panics (`none`) when `votes_for` exceeds the total. -/
def determine_result (state : ContractState) (zk_state : ZkState)
    (computation_result_variable_id : Nat) : Option VoteResult :=
  match read_variable_u32_le zk_state computation_result_variable_id with
  | none => none
  | some votes_for =>
    let total_votes := countVoteVariables zk_state
    if votes_for ≤ total_votes then
      some { vote_id := state.current_vote_id
             votes_for := votes_for
             votes_against := total_votes - votes_for
             proof := none }
    else
      none

/-- `build_and_attest_voting_result` from `contract.rs`:
`opened_variables.get(0).unwrap()` (panic on an empty list, any further
ids silently ignored), build the result, push it onto the open state and
request attestation of its big-endian serialization. -/
def build_and_attest_voting_result (state : ContractState)
    (zk_state : ZkState) (opened_variables : List Nat) :
    Option (ContractState × List Unit × List ZkStateChange) :=
  match opened_variables.head? with
  | none => none
  | some computation_result_variable_id =>
    match determine_result state zk_state computation_result_variable_id with
    | none => none
    | some vote_result =>
      some ({ state with
                vote_results := state.vote_results ++ [vote_result] },
            [],
            [ZkStateChange.Attest
              (serialize_result_as_big_endian vote_result)])

/-- `iter_mut().find(...)` followed by the proof update: set the proof on
the FIRST result whose `vote_id` matches, leaving the rest untouched. -/
def setProofOnFirst (results : List VoteResult) (target_vote_id : Nat)
    (p : List Char) : List VoteResult :=
  match results with
  | [] => []
  | r :: rest =>
    if r.vote_id == target_vote_id then { r with proof := some p } :: rest
    else r :: setProofOnFirst rest target_vote_id p

/-- `save_attestation_on_result_and_start_next_vote` from `contract.rs`:
find the result for the current vote id (`unwrap`, i.e. `none` if
missing), find the attestation by id (`unwrap`), store the formatted
proof string on the result, increment the vote id, and request deletion
of every secret variable. -/
def save_attestation_on_result_and_start_next_vote (state : ContractState)
    (zk_state : ZkState) (attestation_id : Nat) :
    Option (ContractState × List Unit × List ZkStateChange) :=
  let variables_to_delete := zk_state.secret_variables.map
    (fun x => x.variable_id)
  match state.vote_results.find?
      (fun r => r.vote_id == state.current_vote_id) with
  | none => none
  | some _ =>
    match zk_state.data_attestations.find?
        (fun a => a.attestation_id == attestation_id) with
    | none => none
    | some attestation =>
      let proof_of_result := proofString attestation.signatures
      some ({ current_vote_id := state.current_vote_id + 1
              vote_results := setProofOnFirst state.vote_results
                state.current_vote_id proof_of_result },
            [],
            [ZkStateChange.OutputComplete variables_to_delete])

/-! ## Global transition system

The contract is driven by external triggers (user actions and engine
callbacks). `Step` combines each contract entry point with the engine
effect of honouring the requests the entry point returns, and its guards
encode the callback ordering the engine guarantees (spec section 5):
start-counting → computation-complete → variables-opened →
attestation-complete, with cleanup before the next round. -/

/-- A global state: the contract's open state plus the engine state. -/
structure GState where
  cs : ContractState
  zk : ZkState
deriving DecidableEq, Repr

/-- The initial global state: `initContract` and an empty, idle engine. -/
def initGState : GState :=
  { cs := initContract
    zk := { calculation_state := CalculationStatus.Waiting
            secret_variables := []
            pending_inputs := []
            data_attestations := [] } }

/-- The engine registering a new pending one-bit vote input for `sender`. -/
def addPendingVote (zk_state : ZkState) (freshId sender : Nat) : ZkState :=
  { zk_state with
      pending_inputs := zk_state.pending_inputs ++
        [{ variable_id := freshId
           owner := sender
           metadata := { variable_type := SecretVarType.Vote }
           data := none }] }

/-- One external trigger handled to completion, together with the engine
effects it causes. -/
inductive Step : GState → GState → Prop where
  | castVote (s : GState) (sender freshId : Nat)
      (res : ContractState × List Unit × ZkInputDef)
      (hok : cast_vote sender s.cs s.zk = Except.ok res) :
      Step s { cs := res.1, zk := addPendingVote s.zk freshId sender }
  | confirmInput (s : GState) (v : SecretVariable)
      (rest : List SecretVariable)
      (hp : s.zk.pending_inputs = v :: rest) :
      Step s { cs := s.cs
               zk := { s.zk with
                         pending_inputs := rest
                         secret_variables := s.zk.secret_variables ++ [v] } }
  | startCounting (s : GState)
      (res : ContractState × List Unit × List ZkStateChange)
      (hok : start_vote_counting s.cs s.zk = Except.ok res) :
      Step s { cs := res.1
               zk := { s.zk with
                         calculation_state := CalculationStatus.Calculating } }
  | computeComplete (s : GState) (outId : Nat) (bytes : List Nat)
      (res : ContractState × List Unit × List ZkStateChange)
      (hphase : s.zk.calculation_state = CalculationStatus.Calculating)
      (hres : open_yes_count_variable s.cs [outId] = res) :
      Step s { cs := res.1
               zk := { s.zk with
                         calculation_state := CalculationStatus.Opening
                         secret_variables := s.zk.secret_variables ++
                           [{ variable_id := outId
                              owner := 0
                              metadata :=
                                { variable_type :=
                                    SecretVarType.CountedYesVotes }
                              data := some bytes }] } }
  | varsOpened (s : GState) (openedIds : List Nat) (att : DataAttestation)
      (res : ContractState × List Unit × List ZkStateChange)
      (hphase : s.zk.calculation_state = CalculationStatus.Opening)
      (hok : build_and_attest_voting_result s.cs s.zk openedIds = some res) :
      Step s { cs := res.1
               zk := { s.zk with
                         calculation_state := CalculationStatus.Attesting
                         data_attestations :=
                           s.zk.data_attestations ++ [att] } }
  | attestComplete (s : GState) (attestationId : Nat)
      (res : ContractState × List Unit × List ZkStateChange)
      (hphase : s.zk.calculation_state = CalculationStatus.Attesting)
      (hok : save_attestation_on_result_and_start_next_vote s.cs s.zk
        attestationId = some res) :
      Step s { cs := res.1
               zk := { calculation_state := CalculationStatus.Waiting
                       secret_variables := []
                       pending_inputs := s.zk.pending_inputs
                       data_attestations := s.zk.data_attestations } }

/-- States reachable from the initial state through `Step`. -/
inductive Reachable : GState → Prop where
  | init : Reachable initGState
  | step (s t : GState) (hs : Reachable s) (hst : Step s t) : Reachable t

/-- A round-finalizing transition: the attestation-complete callback
handled successfully (the only transition that may change
`current_vote_id`). -/
def FinalizeStep (s t : GState) : Prop :=
  s.zk.calculation_state = CalculationStatus.Attesting ∧
  ∃ attestationId res,
    save_attestation_on_result_and_start_next_vote s.cs s.zk
      attestationId = some res ∧
    t.cs = res.1 ∧
    t.zk = { calculation_state := CalculationStatus.Waiting
             secret_variables := []
             pending_inputs := s.zk.pending_inputs
             data_attestations := s.zk.data_attestations }

/-- Ids of the recorded results, in list order. -/
def resultIds (cs : ContractState) : List Nat :=
  cs.vote_results.map VoteResult.vote_id

/-- The round-id invariant: the recorded result ids are exactly
`1, 2, ..., n` in order, and the current vote id is `n + 1` except while
an attestation for the just-pushed result is outstanding, where it still
equals `n`. -/
def RoundInv (s : GState) : Prop :=
  resultIds s.cs = List.range' 1 s.cs.vote_results.length ∧
  ((s.zk.calculation_state = CalculationStatus.Attesting ∧
      s.cs.current_vote_id = s.cs.vote_results.length) ∨
   (s.zk.calculation_state ≠ CalculationStatus.Attesting ∧
      s.cs.current_vote_id = s.cs.vote_results.length + 1))

/-- Decoding of the attested payload per the documented layout: exactly
twelve bytes read as three consecutive 4-byte big-endian unsigned
integers. -/
def decodeResultBE : List Nat → Option (Nat × Nat × Nat)
  | [a0, a1, a2, a3, b0, b1, b2, b3, c0, c1, c2, c3] =>
    some (((a0 * 256 + a1) * 256 + a2) * 256 + a3,
          ((b0 * 256 + b1) * 256 + b2) * 256 + b3,
          ((c0 * 256 + c1) * 256 + c2) * 256 + c3)
  | _ => none

/-! ## Helper lemmas -/

theorem U32MOD_pos : 0 < U32MOD := by
  unfold U32MOD
  positivity

theorem zkComputeStep_true (a : Nat) : zkComputeStep a true = (a + 1) % U32MOD :=
  rfl

theorem zkComputeStep_false (a : Nat) : zkComputeStep a false = a :=
  rfl

theorem zk_compute_foldl_eq (l : List Bool) :
    ∀ a : Nat, a < U32MOD →
      l.foldl zkComputeStep a = (a + countTrue l) % U32MOD := by
  induction l with
  | nil =>
    intro a ha
    simp [countTrue, Nat.mod_eq_of_lt ha]
  | cons b xs ih =>
    intro a ha
    cases b with
    | false =>
      rw [List.foldl_cons, zkComputeStep_false, ih a ha]
      simp [countTrue, List.countP_cons]
    | true =>
      rw [List.foldl_cons, zkComputeStep_true,
        ih ((a + 1) % U32MOD) (Nat.mod_lt _ U32MOD_pos), Nat.mod_add_mod]
      have hc : countTrue (true :: xs) = countTrue xs + 1 := by
        simp [countTrue, List.countP_cons]
      rw [hc]
      congr 1
      omega

theorem zk_compute_eq_mod (l : List Bool) :
    zk_compute l = countTrue l % U32MOD := by
  unfold zk_compute
  rw [zk_compute_foldl_eq l 0 U32MOD_pos]
  simp

theorem determine_result_read_none (state : ContractState)
    (zk_state : ZkState) (variableId : Nat)
    (h : read_variable_u32_le zk_state variableId = none) :
    determine_result state zk_state variableId = none := by
  unfold determine_result
  rw [h]

theorem determine_result_read_some (state : ContractState)
    (zk_state : ZkState) (variableId n : Nat)
    (h : read_variable_u32_le zk_state variableId = some n) :
    determine_result state zk_state variableId =
      if n ≤ countVoteVariables zk_state then
        some { vote_id := state.current_vote_id
               votes_for := n
               votes_against := countVoteVariables zk_state - n
               proof := none }
      else none := by
  unfold determine_result
  rw [h]

theorem determine_result_sum (state : ContractState) (zk_state : ZkState)
    (variableId : Nat) (vr : VoteResult)
    (h : determine_result state zk_state variableId = some vr) :
    vr.votes_for + vr.votes_against = countVoteVariables zk_state ∧
    vr.vote_id = state.current_vote_id := by
  cases hread : read_variable_u32_le zk_state variableId with
  | none =>
    rw [determine_result_read_none state zk_state variableId hread] at h
    exact absurd h (by simp)
  | some votes_for =>
    rw [determine_result_read_some state zk_state variableId votes_for hread]
      at h
    by_cases hle : votes_for ≤ countVoteVariables zk_state
    · rw [if_pos hle] at h
      injection h with h
      subst h
      refine ⟨?_, rfl⟩
      show votes_for + (countVoteVariables zk_state - votes_for) = _
      omega
    · rw [if_neg hle] at h
      exact absurd h (by simp)

theorem cast_vote_ok (sender : Nat) (state : ContractState)
    (zk_state : ZkState) (res : ContractState × List Unit × ZkInputDef)
    (h : cast_vote sender state zk_state = Except.ok res) :
    res.1 = state ∧
    zk_state.calculation_state = CalculationStatus.Waiting ∧
    (zk_state.secret_variables ++ zk_state.pending_inputs).any
      (fun v => v.owner == sender) = false := by
  unfold cast_vote at h
  by_cases hw : zk_state.calculation_state = CalculationStatus.Waiting
  · rw [if_neg (by simp [hw])] at h
    by_cases hd : (zk_state.secret_variables ++ zk_state.pending_inputs).any
        (fun v => v.owner == sender)
    · rw [if_pos hd] at h
      exact absurd h (by simp)
    · rw [if_neg hd] at h
      injection h with h
      exact ⟨by rw [← h], hw, by simpa using hd⟩
  · rw [if_pos (by simp [hw])] at h
    exact absurd h (by simp)

theorem start_vote_counting_ok (state : ContractState) (zk_state : ZkState)
    (res : ContractState × List Unit × List ZkStateChange)
    (h : start_vote_counting state zk_state = Except.ok res) :
    res.1 = state ∧
    zk_state.calculation_state = CalculationStatus.Waiting := by
  unfold start_vote_counting at h
  by_cases hw : zk_state.calculation_state = CalculationStatus.Waiting
  · rw [if_neg (by simp [hw])] at h
    injection h with h
    exact ⟨by rw [← h], hw⟩
  · rw [if_pos (by simp [hw])] at h
    exact absurd h (by simp)

theorem build_and_attest_shape (state : ContractState) (zk_state : ZkState)
    (openedVariables : List Nat)
    (res : ContractState × List Unit × List ZkStateChange)
    (h : build_and_attest_voting_result state zk_state openedVariables =
      some res) :
    ∃ i vr, openedVariables.head? = some i ∧
      determine_result state zk_state i = some vr ∧
      res.1 = { state with
                  vote_results := state.vote_results ++ [vr] } := by
  unfold build_and_attest_voting_result at h
  split at h
  · exact absurd h (by simp)
  · rename_i i hh
    split at h
    · exact absurd h (by simp)
    · rename_i vr hd
      injection h with h
      exact ⟨i, vr, hh, hd, by rw [← h]⟩

theorem save_attestation_shape (state : ContractState) (zk_state : ZkState)
    (attestationId : Nat)
    (res : ContractState × List Unit × List ZkStateChange)
    (h : save_attestation_on_result_and_start_next_vote state zk_state
      attestationId = some res) :
    ∃ attestation,
      zk_state.data_attestations.find?
        (fun a => a.attestation_id == attestationId) = some attestation ∧
      res.1 = { current_vote_id := state.current_vote_id + 1
                vote_results := setProofOnFirst state.vote_results
                  state.current_vote_id
                  (proofString attestation.signatures) } := by
  unfold save_attestation_on_result_and_start_next_vote at h
  split at h
  · exact absurd h (by simp)
  · rename_i found hr
    split at h
    · exact absurd h (by simp)
    · rename_i attestation ha
      injection h with h
      exact ⟨attestation, ha, by rw [← h]⟩

theorem setProofOnFirst_map_vote_id (results : List VoteResult)
    (target : Nat) (p : List Char) :
    (setProofOnFirst results target p).map VoteResult.vote_id =
      results.map VoteResult.vote_id := by
  induction results with
  | nil => rfl
  | cons r rest ih =>
    unfold setProofOnFirst
    by_cases hr : r.vote_id == target
    · rw [if_pos hr]
      simp
    · rw [if_neg hr]
      simp [ih]

theorem setProofOnFirst_length (results : List VoteResult) (target : Nat)
    (p : List Char) :
    (setProofOnFirst results target p).length = results.length := by
  have h := congrArg List.length (setProofOnFirst_map_vote_id results target p)
  simpa using h

theorem roundInv_init : RoundInv initGState := by
  constructor
  · rfl
  · right
    exact ⟨by simp [initGState], rfl⟩

theorem roundInv_step (s t : GState) (hinv : RoundInv s) (hst : Step s t) :
    RoundInv t := by
  obtain ⟨hids, hcvi⟩ := hinv
  cases hst with
  | castVote sender freshId res hok =>
    obtain ⟨hres, hw, -⟩ := cast_vote_ok sender s.cs s.zk res hok
    refine ⟨?_, Or.inr ⟨?_, ?_⟩⟩
    · show resultIds res.1 = List.range' 1 res.1.vote_results.length
      rw [hres]
      exact hids
    · show (addPendingVote s.zk freshId sender).calculation_state ≠ _
      show s.zk.calculation_state ≠ _
      rw [hw]
      simp
    · show res.1.current_vote_id = res.1.vote_results.length + 1
      rw [hres]
      rcases hcvi with ⟨hA, _⟩ | ⟨_, h2⟩
      · rw [hw] at hA
        exact absurd hA (by simp)
      · exact h2
  | confirmInput v rest hp =>
    refine ⟨hids, ?_⟩
    rcases hcvi with ⟨hA, h2⟩ | ⟨hA, h2⟩
    · exact Or.inl ⟨hA, h2⟩
    · exact Or.inr ⟨hA, h2⟩
  | startCounting res hok =>
    obtain ⟨hres, hw⟩ := start_vote_counting_ok s.cs s.zk res hok
    refine ⟨?_, Or.inr ⟨by simp, ?_⟩⟩
    · show resultIds res.1 = List.range' 1 res.1.vote_results.length
      rw [hres]
      exact hids
    · show res.1.current_vote_id = res.1.vote_results.length + 1
      rw [hres]
      rcases hcvi with ⟨hA, _⟩ | ⟨_, h2⟩
      · rw [hw] at hA
        exact absurd hA (by simp)
      · exact h2
  | computeComplete outId bytes res hphase hres =>
    have hres1 : res.1 = s.cs := by
      rw [← hres]
      rfl
    refine ⟨?_, Or.inr ⟨by simp, ?_⟩⟩
    · show resultIds res.1 = List.range' 1 res.1.vote_results.length
      rw [hres1]
      exact hids
    · show res.1.current_vote_id = res.1.vote_results.length + 1
      rw [hres1]
      rcases hcvi with ⟨hA, _⟩ | ⟨_, h2⟩
      · rw [hphase] at hA
        exact absurd hA (by simp)
      · exact h2
  | varsOpened openedIds att res hphase hok =>
    obtain ⟨i, vr, hh, hd, hres1⟩ :=
      build_and_attest_shape s.cs s.zk openedIds res hok
    obtain ⟨hsum, hvid⟩ := determine_result_sum s.cs s.zk i vr hd
    have h2 : s.cs.current_vote_id = s.cs.vote_results.length + 1 := by
      rcases hcvi with ⟨hA, _⟩ | ⟨_, h2⟩
      · rw [hphase] at hA
        exact absurd hA (by simp)
      · exact h2
    refine ⟨?_, Or.inl ⟨rfl, ?_⟩⟩
    · show resultIds res.1 = List.range' 1 res.1.vote_results.length
      rw [hres1]
      show (s.cs.vote_results ++ [vr]).map VoteResult.vote_id =
        List.range' 1 (s.cs.vote_results ++ [vr]).length
      rw [List.map_append, List.length_append]
      show resultIds s.cs ++ [vr.vote_id] = _
      rw [hids, hvid, h2]
      rw [show s.cs.vote_results.length + [vr].length =
        s.cs.vote_results.length + 1 by rfl]
      rw [List.range'_1_concat 1 s.cs.vote_results.length]
      congr 2
      omega
    · show res.1.current_vote_id = res.1.vote_results.length
      rw [hres1]
      show s.cs.current_vote_id = (s.cs.vote_results ++ [vr]).length
      rw [List.length_append, h2]
      rfl
  | attestComplete attestationId res hphase hok =>
    obtain ⟨att, hfind, hres1⟩ :=
      save_attestation_shape s.cs s.zk attestationId res hok
    have h2 : s.cs.current_vote_id = s.cs.vote_results.length := by
      rcases hcvi with ⟨_, h2⟩ | ⟨hA, _⟩
      · exact h2
      · exact absurd hphase hA
    refine ⟨?_, Or.inr ⟨by simp, ?_⟩⟩
    · show resultIds res.1 = List.range' 1 res.1.vote_results.length
      rw [hres1]
      show (setProofOnFirst s.cs.vote_results s.cs.current_vote_id
          (proofString att.signatures)).map VoteResult.vote_id = _
      rw [setProofOnFirst_map_vote_id]
      show resultIds s.cs = _
      rw [hids]
      congr 1
      exact (setProofOnFirst_length s.cs.vote_results s.cs.current_vote_id
        (proofString att.signatures)).symm
    · show res.1.current_vote_id = res.1.vote_results.length + 1
      rw [hres1]
      show s.cs.current_vote_id + 1 =
        (setProofOnFirst s.cs.vote_results s.cs.current_vote_id
          (proofString att.signatures)).length + 1
      rw [setProofOnFirst_length, h2]

theorem reachable_roundInv (s : GState) (h : Reachable s) : RoundInv s := by
  induction h with
  | init => exact roundInv_init
  | step s t hs hst ih => exact roundInv_step s t ih hst

theorem step_vote_id (s t : GState) (hst : Step s t) :
    (t.cs.current_vote_id = s.cs.current_vote_id ∧ ¬ FinalizeStep s t) ∨
    (t.cs.current_vote_id = s.cs.current_vote_id + 1 ∧ FinalizeStep s t) := by
  cases hst with
  | castVote sender freshId res hok =>
    obtain ⟨hres, hw, -⟩ := cast_vote_ok sender s.cs s.zk res hok
    left
    refine ⟨?_, ?_⟩
    · show res.1.current_vote_id = _
      rw [hres]
    · intro hfin
      have hA := hfin.1
      rw [hw] at hA
      exact absurd hA (by simp)
  | confirmInput v rest hp =>
    left
    refine ⟨rfl, ?_⟩
    intro hfin
    obtain ⟨hA, aid, res, hsave, htc, htzk⟩ := hfin
    have h2 : s.zk.calculation_state = CalculationStatus.Waiting :=
      congrArg ZkState.calculation_state htzk
    rw [hA] at h2
    exact absurd h2 (by simp)
  | startCounting res hok =>
    obtain ⟨hres, hw⟩ := start_vote_counting_ok s.cs s.zk res hok
    left
    refine ⟨?_, ?_⟩
    · show res.1.current_vote_id = _
      rw [hres]
    · intro hfin
      have hA := hfin.1
      rw [hw] at hA
      exact absurd hA (by simp)
  | computeComplete outId bytes res hphase hres =>
    have hres1 : res.1 = s.cs := by
      rw [← hres]
      rfl
    left
    refine ⟨?_, ?_⟩
    · show res.1.current_vote_id = _
      rw [hres1]
    · intro hfin
      have hA := hfin.1
      rw [hphase] at hA
      exact absurd hA (by simp)
  | varsOpened openedIds att res hphase hok =>
    left
    refine ⟨?_, ?_⟩
    · obtain ⟨i, vr, hh, hd, hres1⟩ :=
        build_and_attest_shape s.cs s.zk openedIds res hok
      show res.1.current_vote_id = _
      rw [hres1]
    · intro hfin
      have hA := hfin.1
      rw [hphase] at hA
      exact absurd hA (by simp)
  | attestComplete attestationId res hphase hok =>
    right
    obtain ⟨att, hfind, hres1⟩ :=
      save_attestation_shape s.cs s.zk attestationId res hok
    refine ⟨?_, ?_⟩
    · show res.1.current_vote_id = _
      rw [hres1]
    · exact ⟨hphase, attestationId, res, hok, rfl, rfl⟩

theorem u32_be_decode (n : Nat) (h : n < U32MOD) :
    ((n / 2 ^ 24 % 256 * 256 + n / 2 ^ 16 % 256) * 256 + n / 2 ^ 8 % 256)
      * 256 + n % 256 = n := by
  unfold U32MOD at h
  omega

theorem hexOfBytes_length (l : List Nat) :
    (hexOfBytes l).length = 2 * l.length := by
  induction l with
  | nil => rfl
  | cons b rest ih =>
    unfold hexOfBytes
    rw [List.length_append, ih]
    simp [byteToHex]
    omega

theorem read_variable_eq (zk_state : ZkState) (i : Nat)
    (v : SecretVariable) (hg : zk_state.get_variable i = some v) :
    read_variable_u32_le zk_state i =
      match v.data with
      | none => none
      | some bytes =>
        if bytes.length = 4 then some (u32FromLeBytes bytes) else none := by
  unfold read_variable_u32_le
  rw [hg]

/-! ## Concrete states used by witnesses and counterexamples -/

/-- An engine state in `Waiting` phase whose confirmed set contains a vote
owned by address 7. -/
def wZkDup : ZkState :=
  { calculation_state := CalculationStatus.Waiting
    secret_variables :=
      [{ variable_id := 1, owner := 7
         metadata := { variable_type := SecretVarType.Vote }, data := none }]
    pending_inputs := []
    data_attestations := [] }

/-- An engine state reporting a running computation. -/
def wZkRunning : ZkState :=
  { calculation_state := CalculationStatus.Calculating
    secret_variables := []
    pending_inputs := []
    data_attestations := [] }

/-- An engine state after declassification: one opened `CountedYesVotes`
variable (id 9) holding the little-endian count 2, and three `Vote`
variables. -/
def wZkTally : ZkState :=
  { calculation_state := CalculationStatus.Opening
    secret_variables :=
      [{ variable_id := 9, owner := 0
         metadata := { variable_type := SecretVarType.CountedYesVotes }
         data := some [2, 0, 0, 0] },
       { variable_id := 1, owner := 11
         metadata := { variable_type := SecretVarType.Vote }, data := none },
       { variable_id := 2, owner := 12
         metadata := { variable_type := SecretVarType.Vote }, data := none },
       { variable_id := 3, owner := 13
         metadata := { variable_type := SecretVarType.Vote }, data := none }]
    pending_inputs := []
    data_attestations := [] }

/-- Like `wZkTally`, but with TWO opened `CountedYesVotes` variables (ids 8
and 9) holding different counts, to probe the arity handling of the
variables-opened callback. -/
def wZkTwoOutputs : ZkState :=
  { calculation_state := CalculationStatus.Opening
    secret_variables :=
      [{ variable_id := 8, owner := 0
         metadata := { variable_type := SecretVarType.CountedYesVotes }
         data := some [2, 0, 0, 0] },
       { variable_id := 9, owner := 0
         metadata := { variable_type := SecretVarType.CountedYesVotes }
         data := some [3, 0, 0, 0] },
       { variable_id := 1, owner := 11
         metadata := { variable_type := SecretVarType.Vote }, data := none },
       { variable_id := 2, owner := 12
         metadata := { variable_type := SecretVarType.Vote }, data := none },
       { variable_id := 3, owner := 13
         metadata := { variable_type := SecretVarType.Vote }, data := none }]
    pending_inputs := []
    data_attestations := [] }

/-- A global state about to finalize round 1: the unproofed result is
recorded, phase is `Attesting` and one completed attestation (id 1, no
signatures) is available. -/
def finState : GState :=
  { cs := { current_vote_id := 1
            vote_results := [{ vote_id := 1, votes_for := 2
                               votes_against := 1, proof := none }] }
    zk := { calculation_state := CalculationStatus.Attesting
            secret_variables := []
            pending_inputs := []
            data_attestations := [{ attestation_id := 1, signatures := [] }] } }

/-- The global state after `finState` handles its attestation-complete
callback. -/
def finStateAfter : GState :=
  { cs := { current_vote_id := 2
            vote_results := [{ vote_id := 1, votes_for := 2
                               votes_against := 1, proof := some ['[', ']'] }] }
    zk := { calculation_state := CalculationStatus.Waiting
            secret_variables := []
            pending_inputs := []
            data_attestations := [{ attestation_id := 1, signatures := [] }] } }

/-! ## Claim theorems -/

/-- Claim C1: the counting computation `zk_compute` always returns a
32-bit unsigned integer equal to the number of vote variables whose
secret bit is true (whenever that count is representable in 32 bits),
independently of enumeration order; in particular, on the input bits
`[0,0,1,1,0,0]` it returns 2. -/
theorem zk_compute_counts_true_votes :
    (∀ votes : List Bool, zk_compute votes < U32MOD) ∧
    (∀ votes : List Bool, countTrue votes < U32MOD →
      zk_compute votes = countTrue votes) ∧
    (∀ v1 v2 : List Bool, List.Perm v1 v2 → zk_compute v1 = zk_compute v2) ∧
    zk_compute [false, false, true, true, false, false] = 2 := by
  refine ⟨?_, ?_, ?_, rfl⟩
  · intro votes
    rw [zk_compute_eq_mod]
    exact Nat.mod_lt _ U32MOD_pos
  · intro votes h
    rw [zk_compute_eq_mod, Nat.mod_eq_of_lt h]
  · intro v1 v2 hp
    rw [zk_compute_eq_mod, zk_compute_eq_mod]
    unfold countTrue
    rw [hp.countP_eq (fun v => v)]

/-- Witness for C1 at a concrete input: the count hypothesis holds for
`[true, false, true]` and the theorem computes the count 2 there. -/
theorem zk_compute_counts_true_votes_witness :
    countTrue [true, false, true] < U32MOD ∧
    zk_compute [true, false, true] = countTrue [true, false, true] :=
  ⟨by decide,
   zk_compute_counts_true_votes.2.1 [true, false, true] (by decide)⟩

/-- Claim C2: every result built by `determine_result` (and hence pushed by
`build_and_attest_voting_result`) satisfies
`votes_for + votes_against = number of registry variables tagged Vote`. -/
theorem votes_sum_equals_total :
    (∀ state zk_state variableId vr,
      determine_result state zk_state variableId = some vr →
      vr.votes_for + vr.votes_against = countVoteVariables zk_state) ∧
    (∀ state zk_state openedVariables res,
      build_and_attest_voting_result state zk_state openedVariables =
        some res →
      ∃ vr, res.1.vote_results = state.vote_results ++ [vr] ∧
        vr.votes_for + vr.votes_against = countVoteVariables zk_state) := by
  constructor
  · intro state zk_state variableId vr h
    exact (determine_result_sum state zk_state variableId vr h).1
  · intro state zk_state openedVariables res h
    obtain ⟨i, vr, hh, hd, hres1⟩ :=
      build_and_attest_shape state zk_state openedVariables res h
    refine ⟨vr, ?_, (determine_result_sum state zk_state i vr hd).1⟩
    rw [hres1]

/-- Witness for C2 at a concrete input: `determine_result` on a state with
an opened count of 2 and three admitted votes yields 2 + 1 = 3. -/
theorem votes_sum_equals_total_witness :
    determine_result initContract wZkTally 9 =
      some { vote_id := 1, votes_for := 2, votes_against := 1
             proof := none } ∧
    (2 : Nat) + 1 = countVoteVariables wZkTally :=
  ⟨by decide,
   votes_sum_equals_total.1 initContract wZkTally 9
     { vote_id := 1, votes_for := 2, votes_against := 1, proof := none }
     (by decide)⟩

/-- Claim C3: when some confirmed or pending secret variable is already
owned by the caller, `cast_vote` is rejected — with the duplicate-voter
error in the `Waiting` phase — and never succeeds, because the check runs
against the live pending-plus-confirmed owner set. -/
theorem cast_vote_rejects_duplicates :
    ∀ sender state zk_state,
      (zk_state.secret_variables ++ zk_state.pending_inputs).any
        (fun v => v.owner == sender) = true →
      ((zk_state.calculation_state = CalculationStatus.Waiting →
         cast_vote sender state zk_state =
           Except.error VoteError.DuplicateVoterError) ∧
       ∀ res, cast_vote sender state zk_state ≠ Except.ok res) := by
  intro sender state zk_state hdup
  constructor
  · intro hw
    unfold cast_vote
    rw [if_neg (by simp [hw]), if_pos hdup]
  · intro res hok
    obtain ⟨-, -, hfalse⟩ := cast_vote_ok sender state zk_state res hok
    rw [hdup] at hfalse
    exact absurd hfalse (by simp)

/-- Witness for C3 at a concrete input: address 7 already owns the
confirmed vote in `wZkDup`, so its second submission fails with
`DuplicateVoterError`. -/
theorem cast_vote_rejects_duplicates_witness :
    cast_vote 7 initContract wZkDup =
      Except.error VoteError.DuplicateVoterError :=
  (cast_vote_rejects_duplicates 7 initContract wZkDup (by decide)).1 rfl

/-- Claim C4: whenever the engine-reported phase is not `Waiting`, both
`cast_vote` and `start_vote_counting` are rejected with the phase error
(so no state change, no event, and no computation request is issued). -/
theorem phase_gating :
    ∀ sender state zk_state,
      zk_state.calculation_state ≠ CalculationStatus.Waiting →
      cast_vote sender state zk_state = Except.error VoteError.PhaseError ∧
      start_vote_counting state zk_state =
        Except.error VoteError.PhaseError := by
  intro sender state zk_state h
  constructor
  · unfold cast_vote
    rw [if_pos h]
  · unfold start_vote_counting
    rw [if_pos h]

/-- Witness for C4 at a concrete input: while the engine reports
`Calculating`, both entry points fail with `PhaseError`. -/
theorem phase_gating_witness :
    cast_vote 7 initContract wZkRunning =
      Except.error VoteError.PhaseError ∧
    start_vote_counting initContract wZkRunning =
      Except.error VoteError.PhaseError :=
  phase_gating 7 initContract wZkRunning (by decide)

/-- Claim C5: `current_vote_id` starts at 1 and, over every reachable
sequence of transitions, is changed only by a successful
attestation-complete (round-finalizing) transition, which increments it by
exactly 1; consequently the recorded result ids are exactly `1..n` in
ascending order with no gaps, duplicates or repeats. -/
theorem vote_id_lifecycle :
    initGState.cs.current_vote_id = 1 ∧
    (∀ s, Reachable s →
      resultIds s.cs = List.range' 1 s.cs.vote_results.length) ∧
    (∀ s, Reachable s → (resultIds s.cs).Pairwise (· < ·)) ∧
    (∀ s t, Step s t →
      (t.cs.current_vote_id = s.cs.current_vote_id ∧ ¬ FinalizeStep s t) ∨
      (t.cs.current_vote_id = s.cs.current_vote_id + 1 ∧
        FinalizeStep s t)) ∧
    (∀ s t, FinalizeStep s t →
      t.cs.current_vote_id = s.cs.current_vote_id + 1) := by
  refine ⟨rfl, ?_, ?_, step_vote_id, ?_⟩
  · intro s h
    exact (reachable_roundInv s h).1
  · intro s h
    rw [(reachable_roundInv s h).1]
    exact List.pairwise_lt_range' 1 s.cs.vote_results.length
  · intro s t hfin
    obtain ⟨hA, aid, res, hsave, htc, htzk⟩ := hfin
    obtain ⟨att, hfind, hres1⟩ :=
      save_attestation_shape s.cs s.zk aid res hsave
    rw [htc, hres1]

/-- Witness for C5 at concrete inputs: the invariant instantiated at the
initial state, and the finalizing transition from `finState` incrementing
the vote id from 1 to 2. -/
theorem vote_id_lifecycle_witness :
    resultIds initGState.cs =
      List.range' 1 initGState.cs.vote_results.length ∧
    finStateAfter.cs.current_vote_id = finState.cs.current_vote_id + 1 :=
  ⟨vote_id_lifecycle.2.1 initGState Reachable.init,
   vote_id_lifecycle.2.2.2.2 finState finStateAfter
     ⟨rfl, 1,
      ({ current_vote_id := 2
         vote_results := [{ vote_id := 1, votes_for := 2, votes_against := 1
                            proof := some ['[', ']'] }] }, [],
       [ZkStateChange.OutputComplete []]),
      by decide, rfl, rfl⟩⟩

/-- Claim C6: `serialize_result_as_big_endian` produces exactly 12 bytes —
three consecutive 4-byte big-endian unsigned integers in the order
`vote_id`, `votes_for`, `votes_against` — and decoding those bytes per
that layout recovers the original fields. -/
theorem serialize_result_round_trip (r : VoteResult)
    (h1 : r.vote_id < U32MOD) (h2 : r.votes_for < U32MOD)
    (h3 : r.votes_against < U32MOD) :
    (serialize_result_as_big_endian r).length = 12 ∧
    serialize_result_as_big_endian r =
      u32ToBeBytes r.vote_id ++ u32ToBeBytes r.votes_for
        ++ u32ToBeBytes r.votes_against ∧
    decodeResultBE (serialize_result_as_big_endian r) =
      some (r.vote_id, r.votes_for, r.votes_against) := by
  refine ⟨rfl, rfl, ?_⟩
  have hdec : decodeResultBE (serialize_result_as_big_endian r) =
      some (((r.vote_id / 2 ^ 24 % 256 * 256 + r.vote_id / 2 ^ 16 % 256)
               * 256 + r.vote_id / 2 ^ 8 % 256) * 256 + r.vote_id % 256,
            ((r.votes_for / 2 ^ 24 % 256 * 256 + r.votes_for / 2 ^ 16 % 256)
               * 256 + r.votes_for / 2 ^ 8 % 256) * 256 + r.votes_for % 256,
            ((r.votes_against / 2 ^ 24 % 256 * 256
                + r.votes_against / 2 ^ 16 % 256)
               * 256 + r.votes_against / 2 ^ 8 % 256) * 256
              + r.votes_against % 256) := rfl
  rw [hdec, u32_be_decode r.vote_id h1, u32_be_decode r.votes_for h2,
    u32_be_decode r.votes_against h3]

/-- Witness for C6 at a concrete input: the result (1, 2, 4) serializes to
12 bytes and decodes back to itself. -/
theorem serialize_result_round_trip_witness :
    (serialize_result_as_big_endian
      { vote_id := 1, votes_for := 2, votes_against := 4
        proof := none }).length = 12 ∧
    decodeResultBE (serialize_result_as_big_endian
      { vote_id := 1, votes_for := 2, votes_against := 4
        proof := none }) = some (1, 2, 4) :=
  ⟨(serialize_result_round_trip
      { vote_id := 1, votes_for := 2, votes_against := 4, proof := none }
      (by decide) (by decide) (by decide)).1,
   (serialize_result_round_trip
      { vote_id := 1, votes_for := 2, votes_against := 4, proof := none }
      (by decide) (by decide) (by decide)).2.2⟩

/-- A concrete signature: r bytes all 0xab, s bytes all 0xcd, recovery
id 0. -/
def wSig : Signature :=
  { value_r := List.replicate 32 171
    value_s := List.replicate 32 205
    recovery_id := 0 }

/-- Claim C7: each formatted signature is `"0x"`, 64 lowercase zero-padded
hex characters of `r`, 64 of `s`, and 2 hex characters of
`recovery_id + 27` — 132 characters in all, ending in `1b` for recovery
id 0 and `1c` for recovery id 1 — and the proof stored on the result is
`"["` + the formatted signatures joined by `", "` in engine order +
`"]"`. -/
theorem evm_proof_string_format :
    (∀ sig : Signature, sig.value_r.length = 32 → sig.value_s.length = 32 →
      (as_evm_string sig).length = 132) ∧
    (∀ sig : Signature, sig.recovery_id = 0 →
      as_evm_string sig =
        ('0' :: 'x' :: (hexOfBytes sig.value_r ++ hexOfBytes sig.value_s))
          ++ ['1', 'b']) ∧
    (∀ sig : Signature, sig.recovery_id = 1 →
      as_evm_string sig =
        ('0' :: 'x' :: (hexOfBytes sig.value_r ++ hexOfBytes sig.value_s))
          ++ ['1', 'c']) ∧
    (∀ s1 s2 : Signature,
      proofString [s1, s2] =
        '[' :: ((as_evm_string s1 ++ (',' :: ' ' :: as_evm_string s2))
          ++ [']'])) ∧
    (∀ state zk_state attestationId res attestation,
      save_attestation_on_result_and_start_next_vote state zk_state
        attestationId = some res →
      zk_state.data_attestations.find?
        (fun a => a.attestation_id == attestationId) = some attestation →
      res.1.vote_results = setProofOnFirst state.vote_results
        state.current_vote_id (proofString attestation.signatures)) := by
  refine ⟨?_, ?_, ?_, ?_, ?_⟩
  · intro sig hr hs
    unfold as_evm_string
    simp [List.length_append, hexOfBytes_length, hr, hs, byteToHex]
  · intro sig h
    unfold as_evm_string
    rw [h]
    have hb : byteToHex ((0 + 27) % 256) = ['1', 'b'] := by decide
    rw [hb]
    simp [List.append_assoc]
  · intro sig h
    unfold as_evm_string
    rw [h]
    have hc : byteToHex ((1 + 27) % 256) = ['1', 'c'] := by decide
    rw [hc]
    simp [List.append_assoc]
  · intro s1 s2
    rfl
  · intro state zk_state attestationId res attestation hsave hfind
    obtain ⟨att2, hfind2, hres1⟩ :=
      save_attestation_shape state zk_state attestationId res hsave
    rw [hfind] at hfind2
    injection hfind2 with he
    rw [← he] at hres1
    rw [hres1]

/-- Witness for C7 at a concrete input: `wSig` has 32-byte `r` and `s`, so
its formatted string has 132 characters and, having recovery id 0, ends
in `1b`. -/
theorem evm_proof_string_format_witness :
    (as_evm_string wSig).length = 132 ∧
    as_evm_string wSig =
      ('0' :: 'x' :: (hexOfBytes wSig.value_r ++ hexOfBytes wSig.value_s))
        ++ ['1', 'b'] :=
  ⟨evm_proof_string_format.1 wSig (by decide) (by decide),
   evm_proof_string_format.2.1 wSig rfl⟩

/-- Claim C8: the result builder derives
`votes_against = total_votes - votes_for` from the count of `Vote`-tagged
registry variables, and fails (underflow panic, no result) when the
revealed `votes_for` exceeds `total_votes`. -/
theorem votes_against_derivation :
    ∀ state zk_state variableId n,
      read_variable_u32_le zk_state variableId = some n →
      ((n ≤ countVoteVariables zk_state →
         determine_result state zk_state variableId =
           some { vote_id := state.current_vote_id
                  votes_for := n
                  votes_against := countVoteVariables zk_state - n
                  proof := none }) ∧
       (countVoteVariables zk_state < n →
         determine_result state zk_state variableId = none)) := by
  intro state zk_state variableId n h
  rw [determine_result_read_some state zk_state variableId n h]
  constructor
  · intro hle
    rw [if_pos hle]
  · intro hlt
    rw [if_neg (by omega)]

/-- Witness for C8 at a concrete input: in `wZkTally` the revealed count 2
does not exceed the 3 admitted votes, so the result (1, 2, 1) is built. -/
theorem votes_against_derivation_witness :
    read_variable_u32_le wZkTally 9 = some 2 ∧
    determine_result initContract wZkTally 9 =
      some { vote_id := 1, votes_for := 2, votes_against := 1
             proof := none } :=
  ⟨by decide,
   by
     have h := (votes_against_derivation initContract wZkTally 9 2
       (by decide)).1 (by decide)
     simpa using h⟩

/-- Counterexample to claim C9 as stated: with TWO opened output ids the
variables-opened handler does not fail fast — it succeeds and silently
uses only the first id (the built result carries the count of variable 8,
ignoring variable 9's count 3). -/
theorem multiple_output_ids_not_rejected :
    build_and_attest_voting_result initContract wZkTwoOutputs [8, 9] =
      some ({ current_vote_id := 1
              vote_results := [{ vote_id := 1, votes_for := 2
                                 votes_against := 1, proof := none }] }, [],
            [ZkStateChange.Attest
              [0, 0, 0, 1, 0, 0, 0, 2, 0, 0, 0, 1]]) ∧
    build_and_attest_voting_result initContract wZkTwoOutputs [8, 9] =
      build_and_attest_voting_result initContract wZkTwoOutputs [8] := by
  exact ⟨by decide, by decide⟩

/-- Claim C9 amended: the callbacks perform no arity validation —
`open_yes_count_variable` forwards every supplied id to be opened, and
`build_and_attest_voting_result` uses only the first id, ignoring any
further ids (it fails only when the list is empty). -/
theorem output_ids_no_arity_check :
    (∀ state ids, open_yes_count_variable state ids =
      (state, [], [ZkStateChange.OpenVariables ids])) ∧
    (∀ state zk_state i rest,
      build_and_attest_voting_result state zk_state (i :: rest) =
        build_and_attest_voting_result state zk_state [i]) ∧
    (∀ state zk_state,
      build_and_attest_voting_result state zk_state [] = none) := by
  refine ⟨?_, ?_, ?_⟩
  · intro state ids
    rfl
  · intro state zk_state i rest
    rfl
  · intro state zk_state
    rfl

/-- Claim C10: the variables-opened pipeline fails (panics) exactly on an
empty opened list, a missing variable, missing revealed data, or revealed
data whose length is not 4; with the one revealed 4-byte variable present
none of those failure branches is reachable and the little-endian value
is read. -/
theorem read_variable_failure_modes :
    (∀ state zk_state,
      build_and_attest_voting_result state zk_state [] = none) ∧
    (∀ zk_state i, zk_state.get_variable i = none →
      read_variable_u32_le zk_state i = none) ∧
    (∀ zk_state i v, zk_state.get_variable i = some v → v.data = none →
      read_variable_u32_le zk_state i = none) ∧
    (∀ zk_state i v bytes, zk_state.get_variable i = some v →
      v.data = some bytes → bytes.length ≠ 4 →
      read_variable_u32_le zk_state i = none) ∧
    (∀ zk_state i v bytes, zk_state.get_variable i = some v →
      v.data = some bytes → bytes.length = 4 →
      read_variable_u32_le zk_state i = some (u32FromLeBytes bytes)) := by
  refine ⟨?_, ?_, ?_, ?_, ?_⟩
  · intro state zk_state
    rfl
  · intro zk_state i hg
    unfold read_variable_u32_le
    rw [hg]
  · intro zk_state i v hg hd
    rw [read_variable_eq zk_state i v hg, hd]
  · intro zk_state i v bytes hg hd hlen
    rw [read_variable_eq zk_state i v hg, hd]
    exact if_neg hlen
  · intro zk_state i v bytes hg hd hlen
    rw [read_variable_eq zk_state i v hg, hd]
    exact if_pos hlen

/-- Witness for C10 at concrete inputs: `wZkTally`'s variable 9 is present
with 4 bytes of data and reads as 2, while reading the absent variable 99
fails. -/
theorem read_variable_failure_modes_witness :
    read_variable_u32_le wZkTally 9 = some (u32FromLeBytes [2, 0, 0, 0]) ∧
    read_variable_u32_le wZkTally 99 = none :=
  ⟨read_variable_failure_modes.2.2.2.2 wZkTally 9
     { variable_id := 9, owner := 0
       metadata := { variable_type := SecretVarType.CountedYesVotes }
       data := some [2, 0, 0, 0] }
     [2, 0, 0, 0] (by decide) (by decide) (by decide),
   read_variable_failure_modes.2.1 wZkTally 99 (by decide)⟩
